import Mathlib

/-!
Verification of the update-check core of SoundBoard27 (`updater.py`):
version comparison, descriptor parsing, the decision logic of
`UpdateClient._handle_update_descriptor`, and the request lifecycle of
`UpdateClient._request_update` / `_on_update_reply` /
`_notify_request_result`, shallowly embedded as Lean functions and a
state machine over an explicit `World`.
-/

namespace SoundBoard

/-! ### Python string primitives used by `updater.py`

Python semantics modelled here:
* `str.strip()` removes leading/trailing whitespace (Lean `String.trim`;
  the whitespace sets agree on space/tab/CR/LF, which is all the
  descriptor format ever contains).
* `str.split(sep)` for a one-character separator is `String.splitOn`
  (both give `[""]` on the empty string and keep empty fields).
* `str.lower()` is `String.toLower` (ASCII case folding; platform tags
  and flags in this program are ASCII).
* `str.splitlines()` splits on `\n`, `\r\n` and `\r` with no trailing
  empty line (Python also recognises some rarer boundary characters
  that never occur in the descriptor format).
* `int(s)` strips whitespace, accepts an optional sign, and accepts
  underscores placed strictly between digits; anything else raises
  `ValueError`.
-/

def isPySpace (c : Char) : Bool := c = ' ' || c = '\t' || c = '\n' || c = '\r'

def stripChars (l : List Char) : List Char :=
  ((l.dropWhile isPySpace).reverse.dropWhile isPySpace).reverse

def pyStrip (s : String) : String := String.mk (stripChars s.data)

def pySplitOnAux (sep : Char) : List Char → List Char → List String
  | [], acc => [String.mk acc.reverse]
  | c :: rest, acc =>
    if c = sep then String.mk acc.reverse :: pySplitOnAux sep rest []
    else pySplitOnAux sep rest (c :: acc)

/-- Python `str.split(sep)` for a one-character separator: every
occurrence splits, empty fields are kept, `"".split(sep) = [""]`. -/
def pySplit (s : String) (sep : Char) : List String := pySplitOnAux sep s.data []

def pyCharLower (c : Char) : Char :=
  if 'A' ≤ c && c ≤ 'Z' then Char.ofNat (c.toNat + 32) else c

def pyLower (s : String) : String := String.mk (s.data.map pyCharLower)

def pyStartswith (s : String) (p : String) : Bool := p.data.isPrefixOf s.data

/-- Tail of a Python integer literal after the first digit: a sequence of
digits where a single underscore may stand between two digits. -/
def pyIntTailValid : List Char → Bool
  | [] => true
  | '_' :: [] => false
  | '_' :: c :: rest => c.isDigit && pyIntTailValid rest
  | c :: rest => c.isDigit && pyIntTailValid rest

/-- Whole digit part of a Python integer literal (after any sign). -/
def pyDigitsValid : List Char → Bool
  | [] => false
  | c :: rest => c.isDigit && pyIntTailValid rest

def natFromDigits (l : List Char) : Nat :=
  l.foldl (fun n c => 10 * n + (c.toNat - '0'.toNat)) 0

/-- Python `int(s)`: `none` models a raised `ValueError`. -/
def pyInt? (s : String) : Option Int :=
  let t := (pyStrip s).data
  let signAndDigits : Int × List Char :=
    match t with
    | '+' :: rest => (1, rest)
    | '-' :: rest => (-1, rest)
    | l => (1, l)
  if pyDigitsValid signAndDigits.2 then
    some (signAndDigits.1 * (natFromDigits (signAndDigits.2.filter (· ≠ '_')) : Int))
  else
    none

def pySplitlinesAux : List Char → List Char → List String
  | [], acc => if acc.isEmpty then [] else [String.mk acc.reverse]
  | '\r' :: '\n' :: rest, acc => String.mk acc.reverse :: pySplitlinesAux rest []
  | '\n' :: rest, acc => String.mk acc.reverse :: pySplitlinesAux rest []
  | '\r' :: rest, acc => String.mk acc.reverse :: pySplitlinesAux rest []
  | c :: rest, acc => pySplitlinesAux rest (c :: acc)

/-- Python `str.splitlines()`. -/
def pySplitlines (s : String) : List String := pySplitlinesAux s.data []

/-! ### Version parsing and comparison (`_parse_version`, `_compare_versions`) -/

/-- Lines 21-28 of `updater.py`: split the stripped string on `"."` and map
each token through `int`, with `ValueError` giving `0`. -/
def _parse_version (version_str : String) : List Int :=
  (pySplit (pyStrip version_str) '.').map (fun part => (pyInt? part).getD 0)

/-- Python `tuple <` on integer tuples: lexicographic, a strict prefix is
smaller. -/
def pyListLt : List Int → List Int → Bool
  | [], [] => false
  | [], _ :: _ => true
  | _ :: _, [] => false
  | x :: xs, y :: ys => if x < y then true else if y < x then false else pyListLt xs ys

/-- Lines 31-41 of `updater.py`: parse both versions, zero-pad the shorter
tuple to the longer tuple's length, then compare. -/
def _compare_versions (a b : String) : Int :=
  let ta := _parse_version a
  let tb := _parse_version b
  let length := max ta.length tb.length
  let ta := ta ++ List.replicate (length - ta.length) 0
  let tb := tb ++ List.replicate (length - tb.length) 0
  if pyListLt ta tb then -1
  else if pyListLt tb ta then 1
  else 0

/-! ### Descriptor parsing (`_parse_update_descriptor`, lines 44-93) -/

/-- The dict `{"version": ..., "flags": ..., "url": ...}` built for a
line of the descriptor that matches the caller's OS tag. -/
structure Entry where
  version : String
  flags : List String
  url : String
deriving DecidableEq, Repr

/-- Line 70 of `updater.py`: `[f.strip().lower() for f in flags_str.split(",") if f.strip()]`. -/
def parseFlags (flags_str : String) : List String :=
  ((pySplit flags_str ',').filter (fun f => pyStrip f ≠ "")).map
    (fun f => pyLower (pyStrip f))

/-- The body of the `for raw_line in text.splitlines()` loop of
`_parse_update_descriptor` (lines 56-90), carrying the `latest_entry`
and `current_entry` accumulators. -/
def descLoop (os_tag current_version : String) :
    List String → Option Entry → Option Entry → Option Entry × Option Entry
  | [], latest_entry, current_entry => (latest_entry, current_entry)
  | raw_line :: rest, latest_entry, current_entry =>
    let line := pyStrip raw_line
    if line = "" || pyStartswith line "#" then
      descLoop os_tag current_version rest latest_entry current_entry
    else
      match (pySplit line '|').map pyStrip with
      | [version_str, os_name, flags_str, url] =>
        if pyLower os_name ≠ pyLower os_tag then
          descLoop os_tag current_version rest latest_entry current_entry
        else
          let entry : Entry := ⟨version_str, parseFlags flags_str, url⟩
          let latest_entry :=
            match latest_entry with
            | none => some entry
            | some l => if _compare_versions version_str l.version > 0 then some entry else some l
          let current_entry :=
            if _compare_versions version_str current_version = 0 then some entry
            else current_entry
          descLoop os_tag current_version rest latest_entry current_entry
      | _ => descLoop os_tag current_version rest latest_entry current_entry

/-- Lines 44-93 of `updater.py`: scan the descriptor text line by line and
return `(latest_entry, current_entry)`. -/
def _parse_update_descriptor (text os_tag current_version : String) :
    Option Entry × Option Entry :=
  descLoop os_tag current_version (pySplitlines text) none none

/-! ### Request lifecycle (`UpdateClient`, lines 96-341)

The client is embedded as a state machine over an explicit `World`.
A caller-supplied result callback (a Python callable) is modelled by the
inductive `Cb`: it is invoked with the result string, may raise
(`raises`), and may re-enter the client by calling `check_now` from
inside the callback (`reenter`).  The surrounding Qt environment is
modelled by counters/logs in `World`:

* `pendingGets` counts HTTP GETs issued through
  `QNetworkAccessManager.get` that have not yet been answered;
* `armedTimers` counts single-shot timers armed by the client
  (`updater.py` creates none: no operation below ever increases it);
* `invocations` logs every call of a result callback, in order, as
  `(callback id, result string)`;
* `dialogs` logs the dialogs handed to the presentation collaborator
  (`_show_mandatory_update_dialog` / `_show_optional_update_dialog`
  are modelled as these log events only; their button handling and the
  skip-version write are UI behaviour outside the claims);
* `skip_version` is the external persisted snooze state read through
  the injected `get_skip_version` (`none` or `""` are both falsy for
  Python's `if skip_version:`).
-/

/-- A caller-supplied result callback. -/
inductive Cb where
  | plain (id : Nat) (raises : Bool) : Cb
  | reenter (id : Nat) (ignore_skip : Bool) (next : Option Cb) : Cb

def Cb.id : Cb → Nat
  | .plain i _ => i
  | .reenter i _ _ => i

/-- The fields of `UpdateClient` that the request lifecycle reads and
writes (lines 128-143). -/
structure ClientState where
  os_tag : String
  app_version : String
  ignore_skip_for_this_request : Bool
  result_callback_for_this_request : Option Cb

structure World where
  client : ClientState
  skip_version : Option String
  pendingGets : Nat
  armedTimers : Nat
  invocations : List (Nat × String)
  dialogs : List String

mutual

/-- Calling a result callback with a result string.  The second
component is `true` when the callback raised (every call site wraps the
call in `try ... except Exception`, so the flag is always discarded
there).  A re-entering callback calls `check_now`, i.e.
`_request_update`, from inside the callback body. -/
def invoke_cb (w : World) (cb : Cb) (result : String) : World × Bool :=
  match cb with
  | .plain i raises =>
    ({ w with invocations := w.invocations ++ [(i, result)] }, raises)
  | .reenter i ignore_skip next =>
    (_request_update { w with invocations := w.invocations ++ [(i, result)] }
      ignore_skip next, false)

/-- Lines 181-209 of `updater.py`: reject with a synchronous `"error"`
callback when `os_tag` is empty (the callback call sits in
`try ... except`); otherwise record `ignore_skip` and the callback for
this request and issue the GET.  No other condition rejects a request
and no timer is armed. -/
def _request_update (w : World) (ignore_skip : Bool) (result_callback : Option Cb) : World :=
  if w.client.os_tag = "" then
    match result_callback with
    | some cb => (invoke_cb w cb "error").1
    | none => w
  else
    { w with
      client := { w.client with
        ignore_skip_for_this_request := ignore_skip,
        result_callback_for_this_request := result_callback },
      pendingGets := w.pendingGets + 1 }

end

/-- Line 154: `start()`. -/
def start (w : World) : World := _request_update w false none

/-- Line 160: `check_now(ignore_skip, result_callback)`. -/
def check_now (w : World) (ignore_skip : Bool) (result_callback : Option Cb) : World :=
  _request_update w ignore_skip result_callback

/-- Lines 327-341 of `updater.py`: take the stored callback, clear the
slot, and call the callback inside `try ... except Exception` (a raise
is logged and swallowed). -/
def _notify_request_result (w : World) (result : String) : World :=
  let cb := w.client.result_callback_for_this_request
  let w := { w with
    client := { w.client with result_callback_for_this_request := none } }
  match cb with
  | none => w
  | some c => (invoke_cb w c result).1

/-- Lines 413-467, abstracted to the presentation event it emits. -/
def _show_mandatory_update_dialog (w : World) : World :=
  { w with dialogs := w.dialogs ++ ["mandatory"] }

/-- Lines 347-411, abstracted to the presentation event it emits (the
dialog is skipped when the stripped latest version is empty). -/
def _show_optional_update_dialog (w : World) (latest_entry : Entry) : World :=
  if pyStrip latest_entry.version = "" then w
  else { w with dialogs := w.dialogs ++ ["optional"] }

/-- Lines 261-265 of `updater.py`. -/
def current_is_deprecated (current_entry : Option Entry) : Bool :=
  match current_entry with
  | some c => c.flags.contains "deprecated"
  | none => false

/-- Lines 238-325 of `updater.py`: parse the descriptor and run the
decision chain, notifying exactly one result string on every path. -/
def _handle_update_descriptor (w : World) (text : String) : World :=
  if w.client.os_tag = "" then _notify_request_result w "error"
  else
    let parsed := _parse_update_descriptor text w.client.os_tag w.client.app_version
    match parsed.1 with
    | none => _notify_request_result w "error"
    | some latest_entry =>
      if current_is_deprecated parsed.2 then
        _notify_request_result (_show_mandatory_update_dialog w) "deprecated"
      else
        let cmp_latest_current :=
          _compare_versions latest_entry.version w.client.app_version
        if cmp_latest_current ≤ 0 then _notify_request_result w "no_update"
        else
          if ¬ w.client.ignore_skip_for_this_request then
            match w.skip_version with
            | some skip_version =>
              if skip_version ≠ "" then
                let cmp_app_skip :=
                  _compare_versions w.client.app_version skip_version
                let cmp_latest_skip :=
                  _compare_versions latest_entry.version skip_version
                if cmp_app_skip ≥ 0 ∧ cmp_latest_skip ≤ 0 then
                  _notify_request_result w "no_update"
                else
                  _notify_request_result
                    (_show_optional_update_dialog w latest_entry) "update_available"
              else
                _notify_request_result
                  (_show_optional_update_dialog w latest_entry) "update_available"
            | none =>
              _notify_request_result
                (_show_optional_update_dialog w latest_entry) "update_available"
          else
            _notify_request_result
              (_show_optional_update_dialog w latest_entry) "update_available"

/-- A finished `QNetworkReply`: either a network error, or a body that
decodes (with `errors="replace"`, which cannot fail) to `text`. -/
structure Reply where
  networkError : Bool
  text : String
deriving DecidableEq, Repr

/-- Lines 211-236 of `updater.py`: on a network error resolve `"error"`
without reading the body; otherwise decode and hand the text to
`_handle_update_descriptor`.  The reply consumes one pending GET. -/
def _on_update_reply (w : World) (reply : Reply) : World :=
  let w := { w with pendingGets := w.pendingGets - 1 }
  if reply.networkError then _notify_request_result w "error"
  else _handle_update_descriptor w reply.text

/-! ### Order-theoretic facts about `pyListLt` and `_compare_versions` -/

lemma pyListLt_irrefl (xs : List Int) : pyListLt xs xs = false := by
  induction xs with
  | nil => rfl
  | cons x xs ih => simp [pyListLt, ih]

lemma pyListLt_asymm : ∀ (xs ys : List Int),
    pyListLt xs ys = true → pyListLt ys xs = false
  | [], [] => by simp [pyListLt]
  | [], _ :: _ => fun _ => rfl
  | _ :: _, [] => by simp [pyListLt]
  | x :: xs, y :: ys => by
    simp only [pyListLt]
    rcases lt_trichotomy x y with h | h | h
    · intro _
      simp [h, not_lt_of_gt h]
    · subst h
      simp only [lt_irrefl, if_false]
      exact pyListLt_asymm xs ys
    · simp [h, not_lt_of_gt h]

lemma pyListLt_trans : ∀ (xs ys zs : List Int),
    pyListLt xs ys = true → pyListLt ys zs = true → pyListLt xs zs = true
  | [], [], _ => by simp [pyListLt]
  | [], _ :: _, [] => by simp [pyListLt]
  | [], _ :: _, _ :: _ => fun _ _ => rfl
  | _ :: _, [], _ => by simp [pyListLt]
  | _ :: _, _ :: _, [] => by simp [pyListLt]
  | x :: xs, y :: ys, z :: zs => by
    simp only [pyListLt]
    rcases lt_trichotomy x y with hxy | hxy | hxy <;>
      rcases lt_trichotomy y z with hyz | hyz | hyz
    · simp [lt_trans hxy hyz]
    · subst hyz; simp [hxy]
    · simp [hyz, not_lt_of_gt hyz]
    · subst hxy; simp [hyz]
    · subst hxy; subst hyz
      simp only [lt_irrefl, if_false]
      exact pyListLt_trans xs ys zs
    · simp [hyz, not_lt_of_gt hyz]
    · simp [hxy, not_lt_of_gt hxy]
    · simp [hxy, not_lt_of_gt hxy]
    · simp [hyz, not_lt_of_gt hyz]

lemma pyListLt_eq_of_not_lt : ∀ (xs ys : List Int), xs.length = ys.length →
    pyListLt xs ys = false → pyListLt ys xs = false → xs = ys
  | [], [], _, _, _ => rfl
  | [], _ :: _, h, _, _ => by simp at h
  | _ :: _, [], h, _, _ => by simp at h
  | x :: xs, y :: ys, h, h1, h2 => by
    simp only [pyListLt] at h1 h2
    rcases lt_trichotomy x y with hxy | hxy | hxy
    · simp [hxy] at h1
    · subst hxy
      simp only [lt_irrefl, if_false] at h1 h2
      have := pyListLt_eq_of_not_lt xs ys (by simpa using h) h1 h2
      rw [this]
    · simp [hxy] at h2

lemma pyListLt_append_replicate : ∀ (xs ys : List Int) (k : Nat),
    xs.length = ys.length →
    pyListLt (xs ++ List.replicate k 0) (ys ++ List.replicate k 0) = pyListLt xs ys
  | [], [], k, _ => by simp [pyListLt_irrefl, pyListLt]
  | [], _ :: _, _, h => by simp at h
  | _ :: _, [], _, h => by simp at h
  | x :: xs, y :: ys, k, h => by
    simp only [List.cons_append, pyListLt, List.append_eq]
    rw [pyListLt_append_replicate xs ys k (by simpa using h)]

/-- Zero-padding a parsed version tuple to length `n`, as done inline in
`_compare_versions`. -/
def padTo (n : Nat) (xs : List Int) : List Int :=
  xs ++ List.replicate (n - xs.length) 0

/-- The three-way comparison that `_compare_versions` performs on the two
padded tuples. -/
def tupleCmp (ta tb : List Int) : Int :=
  if pyListLt ta tb then -1 else if pyListLt tb ta then 1 else 0

lemma compare_versions_def (a b : String) :
    _compare_versions a b =
      tupleCmp
        (padTo (max (_parse_version a).length (_parse_version b).length) (_parse_version a))
        (padTo (max (_parse_version a).length (_parse_version b).length) (_parse_version b)) :=
  rfl

lemma padTo_length (n : Nat) (xs : List Int) (h : xs.length ≤ n) :
    (padTo n xs).length = n := by
  simp [padTo]
  omega

lemma padTo_eq_append (n m : Nat) (xs : List Int) (h1 : xs.length ≤ n) (h2 : n ≤ m) :
    padTo m xs = padTo n xs ++ List.replicate (m - n) 0 := by
  simp only [padTo, List.append_assoc, ← List.replicate_add]
  congr 2
  omega

lemma pyListLt_pad_stable (xs ys : List Int) (n m : Nat)
    (hxn : xs.length ≤ n) (hyn : ys.length ≤ n) (hnm : n ≤ m) :
    pyListLt (padTo m xs) (padTo m ys) = pyListLt (padTo n xs) (padTo n ys) := by
  rw [padTo_eq_append n m xs hxn hnm, padTo_eq_append n m ys hyn hnm,
    pyListLt_append_replicate _ _ _ (by rw [padTo_length _ _ hxn, padTo_length _ _ hyn])]

/-- The comparison may be carried out at any common padding length. -/
lemma compare_versions_at (a b : String) (n : Nat)
    (ha : (_parse_version a).length ≤ n) (hb : (_parse_version b).length ≤ n) :
    _compare_versions a b = tupleCmp (padTo n (_parse_version a)) (padTo n (_parse_version b)) := by
  rw [compare_versions_def]
  unfold tupleCmp
  rw [pyListLt_pad_stable _ _ _ n (le_max_left _ _) (le_max_right _ _) (by omega),
    pyListLt_pad_stable _ _ _ n (le_max_right _ _) (le_max_left _ _) (by omega)]

lemma tupleCmp_mem (xs ys : List Int) :
    tupleCmp xs ys = -1 ∨ tupleCmp xs ys = 0 ∨ tupleCmp xs ys = 1 := by
  unfold tupleCmp
  split_ifs <;> simp

lemma tupleCmp_swap (xs ys : List Int) : tupleCmp xs ys = -tupleCmp ys xs := by
  unfold tupleCmp
  by_cases h1 : pyListLt xs ys
  · have h2 : ¬ pyListLt ys xs = true := by simp [pyListLt_asymm _ _ h1]
    rw [if_pos h1, if_neg h2, if_pos h1]
  · by_cases h2 : pyListLt ys xs
    · rw [if_neg h1, if_pos h2, if_pos h2]
      omega
    · rw [if_neg h1, if_neg h2, if_neg h2, if_neg h1]
      omega

lemma tupleCmp_eq_neg_one (xs ys : List Int) :
    tupleCmp xs ys = -1 ↔ pyListLt xs ys = true := by
  unfold tupleCmp
  by_cases h1 : pyListLt xs ys
  · simp [h1]
  · have hne : ¬ (if pyListLt ys xs then (1 : Int) else 0) = -1 := by
      by_cases h2 : pyListLt ys xs <;> simp [h2]
    simp [h1, hne]

lemma tupleCmp_eq_zero (xs ys : List Int) :
    tupleCmp xs ys = 0 ↔ (pyListLt xs ys = false ∧ pyListLt ys xs = false) := by
  unfold tupleCmp
  by_cases h1 : pyListLt xs ys
  · simp [h1]
  · by_cases h2 : pyListLt ys xs
    · rw [if_neg h1, if_pos h2]
      simp [h1, h2]
    · rw [if_neg h1, if_neg h2]
      simp [h1, h2]

lemma compare_versions_mem (a b : String) :
    _compare_versions a b = -1 ∨ _compare_versions a b = 0 ∨ _compare_versions a b = 1 := by
  rw [compare_versions_def]
  exact tupleCmp_mem _ _

lemma compare_versions_antisymm (a b : String) :
    _compare_versions a b = -_compare_versions b a := by
  rw [compare_versions_at a b (max (_parse_version a).length (_parse_version b).length)
      (le_max_left _ _) (le_max_right _ _),
    compare_versions_at b a (max (_parse_version a).length (_parse_version b).length)
      (le_max_right _ _) (le_max_left _ _)]
  exact tupleCmp_swap _ _

lemma compare_versions_lt_trans (a b c : String)
    (h1 : _compare_versions a b = -1) (h2 : _compare_versions b c = -1) :
    _compare_versions a c = -1 := by
  set n := max (_parse_version a).length
    (max (_parse_version b).length (_parse_version c).length) with hn
  have ha : (_parse_version a).length ≤ n := le_max_left _ _
  have hb : (_parse_version b).length ≤ n := le_trans (le_max_left _ _) (le_max_right _ _)
  have hc : (_parse_version c).length ≤ n := le_trans (le_max_right _ _) (le_max_right _ _)
  rw [compare_versions_at a b n ha hb, tupleCmp_eq_neg_one] at h1
  rw [compare_versions_at b c n hb hc, tupleCmp_eq_neg_one] at h2
  rw [compare_versions_at a c n ha hc, tupleCmp_eq_neg_one]
  exact pyListLt_trans _ _ _ h1 h2

lemma compare_versions_eq_trans (a b c : String)
    (h1 : _compare_versions a b = 0) (h2 : _compare_versions b c = 0) :
    _compare_versions a c = 0 := by
  set n := max (_parse_version a).length
    (max (_parse_version b).length (_parse_version c).length) with hn
  have ha : (_parse_version a).length ≤ n := le_max_left _ _
  have hb : (_parse_version b).length ≤ n := le_trans (le_max_left _ _) (le_max_right _ _)
  have hc : (_parse_version c).length ≤ n := le_trans (le_max_right _ _) (le_max_right _ _)
  rw [compare_versions_at a b n ha hb, tupleCmp_eq_zero] at h1
  rw [compare_versions_at b c n hb hc, tupleCmp_eq_zero] at h2
  have e1 : padTo n (_parse_version a) = padTo n (_parse_version b) :=
    pyListLt_eq_of_not_lt _ _ (by rw [padTo_length _ _ ha, padTo_length _ _ hb]) h1.1 h1.2
  have e2 : padTo n (_parse_version b) = padTo n (_parse_version c) :=
    pyListLt_eq_of_not_lt _ _ (by rw [padTo_length _ _ hb, padTo_length _ _ hc]) h2.1 h2.2
  rw [compare_versions_at a c n ha hc, tupleCmp_eq_zero, e1, e2]
  exact ⟨pyListLt_irrefl _, pyListLt_irrefl _⟩

/-! ### Lifecycle helper lemmas -/

lemma request_update_accept (w : World) (ig : Bool) (cb : Option Cb)
    (hos : w.client.os_tag ≠ "") :
    _request_update w ig cb =
      { w with
        client := { w.client with
          ignore_skip_for_this_request := ig,
          result_callback_for_this_request := cb },
        pendingGets := w.pendingGets + 1 } := by
  rw [_request_update.eq_def]
  exact if_neg hos

lemma request_update_reject_plain (w : World) (ig : Bool) (i : Nat) (r : Bool)
    (hos : w.client.os_tag = "") :
    _request_update w ig (some (.plain i r)) =
      { w with invocations := w.invocations ++ [(i, "error")] } := by
  rw [_request_update.eq_def, if_pos hos]
  rfl

lemma notify_plain (w : World) (i : Nat) (r : Bool) (s : String)
    (hcb : w.client.result_callback_for_this_request = some (.plain i r)) :
    _notify_request_result w s =
      { w with
        client := { w.client with result_callback_for_this_request := none },
        invocations := w.invocations ++ [(i, s)] } := by
  rw [_notify_request_result]
  simp only [hcb]
  rfl

lemma notify_reenter (w : World) (i : Nat) (ig2 : Bool) (next : Option Cb) (s : String)
    (hcb : w.client.result_callback_for_this_request = some (.reenter i ig2 next))
    (hos : w.client.os_tag ≠ "") :
    _notify_request_result w s =
      { w with
        client := { w.client with
          ignore_skip_for_this_request := ig2,
          result_callback_for_this_request := next },
        invocations := w.invocations ++ [(i, s)],
        pendingGets := w.pendingGets + 1 } := by
  rw [_notify_request_result]
  simp only [hcb, invoke_cb]
  exact request_update_accept _ _ _ hos

lemma show_mandatory_client (w : World) :
    (_show_mandatory_update_dialog w).client = w.client := rfl

lemma show_optional_client (w : World) (l : Entry) :
    (_show_optional_update_dialog w l).client = w.client := by
  rw [_show_optional_update_dialog]
  split <;> rfl

lemma show_optional_invocations (w : World) (l : Entry) :
    (_show_optional_update_dialog w l).invocations = w.invocations := by
  rw [_show_optional_update_dialog]
  split <;> rfl

lemma show_optional_pendingGets (w : World) (l : Entry) :
    (_show_optional_update_dialog w l).pendingGets = w.pendingGets := by
  rw [_show_optional_update_dialog]
  split <;> rfl

lemma show_optional_armedTimers (w : World) (l : Entry) :
    (_show_optional_update_dialog w l).armedTimers = w.armedTimers := by
  rw [_show_optional_update_dialog]
  split <;> rfl

/-- Lines 238-325 always reduce to a single `_notify_request_result`
call with one of the four result strings, on a world that differs from
the input world at most in the presentation events emitted before the
notification. -/
lemma handle_update_descriptor_notify (w : World) (text : String) :
    ∃ s w1, (s = "no_update" ∨ s = "update_available" ∨ s = "deprecated" ∨ s = "error") ∧
      w1.client = w.client ∧ w1.invocations = w.invocations ∧
      w1.pendingGets = w.pendingGets ∧ w1.armedTimers = w.armedTimers ∧
      _handle_update_descriptor w text = _notify_request_result w1 s := by
  by_cases hos : w.client.os_tag = ""
  · exact ⟨"error", w, by simp, rfl, rfl, rfl, rfl, by simp [_handle_update_descriptor, hos]⟩
  · rcases hp : (_parse_update_descriptor text w.client.os_tag w.client.app_version).1 with
      _ | latest
    · exact ⟨"error", w, by simp, rfl, rfl, rfl, rfl,
        by simp [_handle_update_descriptor, hos, hp]⟩
    · by_cases hdep :
        current_is_deprecated (_parse_update_descriptor text w.client.os_tag w.client.app_version).2
      · exact ⟨"deprecated", _show_mandatory_update_dialog w, by simp, rfl, rfl, rfl, rfl,
          by simp [_handle_update_descriptor, hos, hp, hdep]⟩
      · by_cases hcmp : _compare_versions latest.version w.client.app_version ≤ 0
        · exact ⟨"no_update", w, by simp, rfl, rfl, rfl, rfl,
            by simp [_handle_update_descriptor, hos, hp, hdep, hcmp]⟩
        · by_cases hig : w.client.ignore_skip_for_this_request
          · exact ⟨"update_available", _show_optional_update_dialog w latest, by simp,
              show_optional_client w latest, show_optional_invocations w latest,
              show_optional_pendingGets w latest, show_optional_armedTimers w latest,
              by simp [_handle_update_descriptor, hos, hp, hdep, hcmp, hig]⟩
          · rcases hsv : w.skip_version with _ | sv
            · exact ⟨"update_available", _show_optional_update_dialog w latest, by simp,
                show_optional_client w latest, show_optional_invocations w latest,
                show_optional_pendingGets w latest, show_optional_armedTimers w latest,
                by simp [_handle_update_descriptor, hos, hp, hdep, hcmp, hig, hsv]⟩
            · by_cases hsvne : sv ≠ ""
              · by_cases hcond : _compare_versions w.client.app_version sv ≥ 0 ∧
                  _compare_versions latest.version sv ≤ 0
                · exact ⟨"no_update", w, by simp, rfl, rfl, rfl, rfl,
                    by simp [_handle_update_descriptor, hos, hp, hdep, hcmp, hig, hsv,
                      hsvne, hcond.1, hcond.2]⟩
                · exact ⟨"update_available", _show_optional_update_dialog w latest, by simp,
                    show_optional_client w latest, show_optional_invocations w latest,
                    show_optional_pendingGets w latest, show_optional_armedTimers w latest,
                    by simp [_handle_update_descriptor, hos, hp, hdep, hcmp, hig, hsv,
                      hsvne, hcond]⟩
              · exact ⟨"update_available", _show_optional_update_dialog w latest, by simp,
                  show_optional_client w latest, show_optional_invocations w latest,
                  show_optional_pendingGets w latest, show_optional_armedTimers w latest,
                  by simp [_handle_update_descriptor, hos, hp, hdep, hcmp, hig, hsv, hsvne]⟩

/-- When the current version is not deprecated, a strictly newer latest
entry is reported `no_update` exactly on the snooze branch of lines
299-318, whose guard is `cmp_app_skip >= 0 and cmp_latest_skip <= 0`
under a truthy `skip_version` and a request that does not ignore the
snooze. -/
lemma handle_snoozed (w : World) (text : String) (latest : Entry) (sv : String)
    (hos : w.client.os_tag ≠ "")
    (hp : (_parse_update_descriptor text w.client.os_tag w.client.app_version).1 = some latest)
    (hdep : current_is_deprecated
      (_parse_update_descriptor text w.client.os_tag w.client.app_version).2 = false)
    (hnew : _compare_versions latest.version w.client.app_version > 0)
    (hig : w.client.ignore_skip_for_this_request = false)
    (hsv : w.skip_version = some sv) (hne : sv ≠ "")
    (hc1 : _compare_versions w.client.app_version sv ≥ 0)
    (hc2 : _compare_versions latest.version sv ≤ 0) :
    _handle_update_descriptor w text = _notify_request_result w "no_update" := by
  have hcmp : ¬ _compare_versions latest.version w.client.app_version ≤ 0 := by omega
  simp [_handle_update_descriptor, hos, hp, hdep, hcmp, hig, hsv, hne, hc1, hc2]

lemma handle_available (w : World) (text : String) (latest : Entry)
    (hos : w.client.os_tag ≠ "")
    (hp : (_parse_update_descriptor text w.client.os_tag w.client.app_version).1 = some latest)
    (hdep : current_is_deprecated
      (_parse_update_descriptor text w.client.os_tag w.client.app_version).2 = false)
    (hnew : _compare_versions latest.version w.client.app_version > 0)
    (h : w.client.ignore_skip_for_this_request = true ∨ w.skip_version = none ∨
      ∃ sv, w.skip_version = some sv ∧ (sv = "" ∨
        ¬(_compare_versions w.client.app_version sv ≥ 0 ∧
          _compare_versions latest.version sv ≤ 0))) :
    _handle_update_descriptor w text =
      _notify_request_result (_show_optional_update_dialog w latest) "update_available" := by
  have hcmp : ¬ _compare_versions latest.version w.client.app_version ≤ 0 := by omega
  rcases h with hig | hsv | ⟨sv, hsv, hempty | hnc⟩
  · simp [_handle_update_descriptor, hos, hp, hdep, hcmp, hig]
  · simp [_handle_update_descriptor, hos, hp, hdep, hcmp, hsv]
  · simp [_handle_update_descriptor, hos, hp, hdep, hcmp, hsv, hempty]
  · simp [_handle_update_descriptor, hos, hp, hdep, hcmp, hsv, hnc]

/-! ### Claims -/

/-- C6: `_compare_versions` is a total order on version strings: it is a
total Lean function (so it never fails), it returns exactly one of
`-1`, `0`, `1`, it satisfies `compare(a,b) = -compare(b,a)`, and the
induced strict order and induced equality are transitive. -/
theorem C6_compare_total_order (a b c : String) :
    (_compare_versions a b = -1 ∨ _compare_versions a b = 0 ∨ _compare_versions a b = 1)
    ∧ _compare_versions a b = -_compare_versions b a
    ∧ (_compare_versions a b = -1 → _compare_versions b c = -1 →
        _compare_versions a c = -1)
    ∧ (_compare_versions a b = 0 → _compare_versions b c = 0 →
        _compare_versions a c = 0) :=
  ⟨compare_versions_mem a b, compare_versions_antisymm a b,
    compare_versions_lt_trans a b c, compare_versions_eq_trans a b c⟩

/-- Witness for C6 at concrete version strings. -/
theorem C6_witness :
    _compare_versions "1.2" "2.0" = -1 ∧ _compare_versions "1.2.0" "1.02" = 0 :=
  ⟨(C6_compare_total_order "1.2" "1.3" "2.0").2.2.1 (by decide) (by decide),
   (C6_compare_total_order "1.2.0" "1.2" "1.02").2.2.2 (by decide) (by decide)⟩

/-- C7: version parse and padding semantics: a token of the dotted
string that is not a valid integer literal parses as `0`, the shorter
tuple is zero-padded before element-wise comparison, and concretely
`compare("1.2","1.2.0") = 0`, `compare("1.10","1.9") = 1`,
`compare("abc","0") = 0`. -/
theorem C7_parse_padding :
    _compare_versions "1.2" "1.2.0" = 0
    ∧ _compare_versions "1.10" "1.9" = 1
    ∧ _compare_versions "abc" "0" = 0
    ∧ _parse_version "abc" = [0]
    ∧ _parse_version "1.x.2" = [1, 0, 2]
    ∧ _parse_version "1.2" = [1, 2] := by
  decide

/-- C8: a descriptor line that is empty after trimming, starts with
`#`, does not split into exactly 4 `|`-separated fields, or whose
platform field does not match the caller's platform tag
case-insensitively, contributes no entry: the parse loop on such a line
is the parse loop on the remaining lines, for every accumulator state,
so the line never participates in the latest/current selection and is
not an error. -/
theorem C8_line_filtering (os_tag current_version raw_line : String)
    (rest : List String) (latest_entry current_entry : Option Entry)
    (h : pyStrip raw_line = "" ∨ pyStartswith (pyStrip raw_line) "#" = true ∨
      ((pySplit (pyStrip raw_line) '|').map pyStrip).length ≠ 4 ∨
      (∃ v o f u, (pySplit (pyStrip raw_line) '|').map pyStrip = [v, o, f, u] ∧
        pyLower o ≠ pyLower os_tag)) :
    descLoop os_tag current_version (raw_line :: rest) latest_entry current_entry =
      descLoop os_tag current_version rest latest_entry current_entry := by
  rcases h with h1 | h2 | h3 | ⟨v, o, f, u, hL, hne⟩
  · simp [descLoop, h1]
  · simp [descLoop, h2]
  · by_cases hblank : (pyStrip raw_line = "" || pyStartswith (pyStrip raw_line) "#") = true
    · simp [descLoop, hblank]
    · rcases hL : (pySplit (pyStrip raw_line) '|').map pyStrip with
        _ | ⟨a, _ | ⟨b, _ | ⟨c, _ | ⟨d, _ | e⟩⟩⟩⟩
      · simp [descLoop, hblank, hL]
      · simp [descLoop, hblank, hL]
      · simp [descLoop, hblank, hL]
      · simp [descLoop, hblank, hL]
      · exact absurd (by rw [hL]; rfl) h3
      · simp [descLoop, hblank, hL]
  · by_cases hblank : (pyStrip raw_line = "" || pyStartswith (pyStrip raw_line) "#") = true
    · simp [descLoop, hblank]
    · simp [descLoop, hblank, hL, hne]

/-- Witness for C8: a 3-field line contributes nothing. -/
theorem C8_witness :
    descLoop "linux" "1.0" ["not|enough|fields"] none none =
      descLoop "linux" "1.0" [] none none :=
  C8_line_filtering "linux" "1.0" "not|enough|fields" [] none none
    (Or.inr (Or.inr (Or.inl (by decide))))

/-- C9: selection tie-breaks.  A relevant line whose version does not
compare strictly greater than the current `latest_entry` leaves
`latest_entry` unchanged (so among equal greatest versions the
first-seen relevant entry wins), while a line whose version compares
equal to `current_version` overwrites `current_entry` (so among
duplicates the last-seen entry wins); concretely, two identical-version
relevant lines yield the first as `latest_entry` and the second as
`current_entry`. -/
theorem C9_tie_breaks (os_tag current_version raw_line v o f u : String)
    (rest : List String) (current_entry : Option Entry) (l : Entry)
    (hblank : (pyStrip raw_line = "" || pyStartswith (pyStrip raw_line) "#") = false)
    (hsplit : (pySplit (pyStrip raw_line) '|').map pyStrip = [v, o, f, u])
    (hos : pyLower o = pyLower os_tag)
    (htie : _compare_versions v l.version ≤ 0) :
    (descLoop os_tag current_version (raw_line :: rest) (some l) current_entry =
      descLoop os_tag current_version rest (some l)
        (if _compare_versions v current_version = 0 then some ⟨v, parseFlags f, u⟩
         else current_entry))
    ∧ _parse_update_descriptor "1.0|linux|a|u1\n1.0|linux|b|u2" "linux" "1.0" =
        (some ⟨"1.0", ["a"], "u1"⟩, some ⟨"1.0", ["b"], "u2"⟩) := by
  constructor
  · have hgt : ¬ _compare_versions v l.version > 0 := by omega
    simp [descLoop, hblank, hsplit, hos, hgt]
  · decide

/-- Witness for C9: an equal-version line does not replace the stored
latest entry but does overwrite the current entry. -/
theorem C9_witness :
    (descLoop "linux" "1.0" ["2.0|linux|x|u9"] (some ⟨"2.0", [], "old"⟩) none =
      descLoop "linux" "1.0" [] (some ⟨"2.0", [], "old"⟩)
        (if _compare_versions "2.0" "1.0" = 0 then some ⟨"2.0", parseFlags "x", "u9"⟩
         else none))
    ∧ _parse_update_descriptor "1.0|linux|a|u1\n1.0|linux|b|u2" "linux" "1.0" =
        (some ⟨"1.0", ["a"], "u1"⟩, some ⟨"1.0", ["b"], "u2"⟩) :=
  C9_tie_breaks "linux" "1.0" "2.0|linux|x|u9" "2.0" "linux" "x" "u9" [] none
    ⟨"2.0", [], "old"⟩ (by decide) (by decide) (by decide) (by decide)

lemma check_now_accept (w : World) (ig : Bool) (cb : Option Cb)
    (hos : w.client.os_tag ≠ "") :
    check_now w ig cb =
      { w with
        client := { w.client with
          ignore_skip_for_this_request := ig,
          result_callback_for_this_request := cb },
        pendingGets := w.pendingGets + 1 } :=
  request_update_accept w ig cb hos

/-- One reply consumed by a client whose current callback is a plain
sink: the sink receives exactly one of the four result strings and the
callback slot is cleared. -/
lemma reply_run_plain (w0 : World) (i : Nat) (r : Bool) (reply : Reply)
    (hcb : w0.client.result_callback_for_this_request = some (.plain i r)) :
    ∃ s, (s = "no_update" ∨ s = "update_available" ∨ s = "deprecated" ∨ s = "error") ∧
      (_on_update_reply w0 reply).invocations = w0.invocations ++ [(i, s)] ∧
      (_on_update_reply w0 reply).client.result_callback_for_this_request = none := by
  by_cases hrep : reply.networkError
  · refine ⟨"error", by simp, ?_, ?_⟩ <;>
      · simp only [_on_update_reply]
        rw [if_pos hrep,
          notify_plain { w0 with pendingGets := w0.pendingGets - 1 } i r "error" hcb]
        try rfl
  · obtain ⟨s, w2, hmem, hcl, hinv, hpend, htmr, heq⟩ :=
      handle_update_descriptor_notify { w0 with pendingGets := w0.pendingGets - 1 } reply.text
    refine ⟨s, hmem, ?_, ?_⟩ <;>
      · simp only [_on_update_reply]
        rw [if_neg hrep, heq, notify_plain w2 i r s (by rw [hcl]; exact hcb)]
        try simp [hinv]
        try rfl

/-- One reply consumed by a client whose current callback re-enters
`check_now`: after the single notification the re-entered request is
accepted, with its fresh callback recorded and a new GET pending. -/
lemma reply_run_reenter (w0 : World) (i : Nat) (ig2 : Bool) (next : Option Cb)
    (reply : Reply)
    (hcb : w0.client.result_callback_for_this_request = some (.reenter i ig2 next))
    (hos : w0.client.os_tag ≠ "") :
    ∃ s, (_on_update_reply w0 reply).client.result_callback_for_this_request = next ∧
      (_on_update_reply w0 reply).pendingGets = w0.pendingGets - 1 + 1 ∧
      (_on_update_reply w0 reply).invocations = w0.invocations ++ [(i, s)] := by
  by_cases hrep : reply.networkError
  · refine ⟨"error", ?_, ?_, ?_⟩ <;>
      · simp only [_on_update_reply]
        rw [if_pos hrep,
          notify_reenter { w0 with pendingGets := w0.pendingGets - 1 } i ig2 next "error"
            hcb hos]
        try rfl
  · obtain ⟨s, w2, hmem, hcl, hinv, hpend, htmr, heq⟩ :=
      handle_update_descriptor_notify { w0 with pendingGets := w0.pendingGets - 1 } reply.text
    refine ⟨s, ?_, ?_, ?_⟩ <;>
      · simp only [_on_update_reply]
        rw [if_neg hrep, heq,
          notify_reenter w2 i ig2 next s (by rw [hcl]; exact hcb) (by rw [hcl]; exact hos)]
        try simp [hinv, hpend, hcl]
        try rfl

/-- C1 counterexample: the code has no single-flight guard.  Starting
from an idle client with a nonempty OS tag, a first `check_now` leaves a
request in flight (its sink, callback 1, has not fired); a second
`check_now` with its own sink (callback 2) is then NOT rejected: no sink
is invoked at all (in particular callback 2 never receives `"error"`),
a second network GET is issued, and the in-flight request's recorded
state is overwritten (the callback slot now holds callback 2 and
`ignore_skip` now holds the second request's flag). -/
theorem C1_counterexample :
    (check_now (check_now ⟨⟨"linux", "1.0", false, none⟩, none, 0, 0, [], []⟩ false
        (some (.plain 1 false))) true (some (.plain 2 false))).invocations = []
    ∧ (check_now (check_now ⟨⟨"linux", "1.0", false, none⟩, none, 0, 0, [], []⟩ false
        (some (.plain 1 false))) true (some (.plain 2 false))).pendingGets = 2
    ∧ (check_now (check_now ⟨⟨"linux", "1.0", false, none⟩, none, 0, 0, [], []⟩ false
        (some (.plain 1 false))) true (some (.plain 2 false))).client.result_callback_for_this_request = some (.plain 2 false)
    ∧ (check_now (check_now ⟨⟨"linux", "1.0", false, none⟩, none, 0, 0, [], []⟩ false
        (some (.plain 1 false))) true (some (.plain 2 false))).client.ignore_skip_for_this_request = true :=
  ⟨rfl, rfl, rfl, rfl⟩

/-- C1 (amended): there is no single-flight guard.  Whenever the OS tag
is nonempty — in particular in every state with a request in flight — a
new call to `start()`/`check_now` is accepted: it overwrites the
recorded `ignore_skip` and result callback of the in-flight request
(whose sink is silently dropped) and issues another network GET.  Only
an empty OS tag causes a synchronous `"error"` rejection. -/
theorem C1_no_single_flight (w : World) (ig : Bool) (cb : Option Cb)
    (hos : w.client.os_tag ≠ "") :
    check_now w ig cb =
      { w with
        client := { w.client with
          ignore_skip_for_this_request := ig,
          result_callback_for_this_request := cb },
        pendingGets := w.pendingGets + 1 } :=
  check_now_accept w ig cb hos

/-- Witness for C1 (amended) on an in-flight state: one GET pending and
callback 1 recorded, then a second call is accepted. -/
theorem C1_witness :
    check_now ⟨⟨"linux", "1.0", false, some (.plain 1 false)⟩, none, 1, 0, [], []⟩ true
        (some (.plain 2 false)) =
      ⟨⟨"linux", "1.0", true, some (.plain 2 false)⟩, none, 2, 0, [], []⟩ :=
  C1_no_single_flight ⟨⟨"linux", "1.0", false, some (.plain 1 false)⟩, none, 1, 0, [], []⟩
    true (some (.plain 2 false)) (by decide)

/-- C2 counterexample: with two overlapping accepted requests
(callback 1 then callback 2, both with supplied sinks, two GETs
pending) and both replies failing, only callback 2 is ever invoked —
once, on the first reply — while callback 1, although its request was
accepted with a supplied sink, is invoked zero times.  Exactly-once
delivery for every accepted request fails on the code. -/
theorem C2_counterexample :
    (_on_update_reply (_on_update_reply
        (check_now (check_now ⟨⟨"linux", "1.0", false, none⟩, none, 0, 0, [], []⟩ false
          (some (.plain 1 false))) false (some (.plain 2 false)))
        ⟨true, ""⟩) ⟨true, ""⟩).invocations = [(2, "error")]
    ∧ ((_on_update_reply (_on_update_reply
        (check_now (check_now ⟨⟨"linux", "1.0", false, none⟩, none, 0, 0, [], []⟩ false
          (some (.plain 1 false))) false (some (.plain 2 false)))
        ⟨true, ""⟩) ⟨true, ""⟩).invocations.map Prod.fst).contains 1 = false :=
  ⟨rfl, rfl⟩

/-- C2 (amended): for an accepted request whose callback is not
overwritten before its reply arrives (no overlapping request), the sink
is invoked exactly once, with one of `"no_update"`,
`"update_available"`, `"deprecated"`, `"error"`, and the callback slot
is cleared before the sink is notified — so a callback that re-enters
`check_now` from inside the notification has its new request accepted,
with its fresh callback recorded and a new GET issued. -/
theorem C2_exactly_once_no_overlap (w : World) (i : Nat) (r ig ig2 : Bool)
    (next : Option Cb) (reply : Reply) (hos : w.client.os_tag ≠ "") :
    (∃ s, (s = "no_update" ∨ s = "update_available" ∨ s = "deprecated" ∨ s = "error") ∧
      (_on_update_reply (check_now w ig (some (.plain i r))) reply).invocations =
        w.invocations ++ [(i, s)] ∧
      (_on_update_reply (check_now w ig (some (.plain i r))) reply).client.result_callback_for_this_request = none)
    ∧ (∃ s2,
      (_on_update_reply (check_now w ig2 (some (.reenter i ig2 next))) reply).client.result_callback_for_this_request = next ∧
      (_on_update_reply (check_now w ig2 (some (.reenter i ig2 next))) reply).pendingGets =
        w.pendingGets + 1 ∧
      (_on_update_reply (check_now w ig2 (some (.reenter i ig2 next))) reply).invocations =
        w.invocations ++ [(i, s2)]) := by
  constructor
  · obtain ⟨s, hmem, hinv, hslot⟩ :=
      reply_run_plain (check_now w ig (some (.plain i r))) i r reply
        (by rw [check_now_accept w ig _ hos])
    refine ⟨s, hmem, ?_, hslot⟩
    rw [hinv, check_now_accept w ig _ hos]
  · obtain ⟨s2, hslot, hpend, hinv⟩ :=
      reply_run_reenter (check_now w ig2 (some (.reenter i ig2 next))) i ig2 next reply
        (by rw [check_now_accept w ig2 _ hos]) (by rw [check_now_accept w ig2 _ hos]; exact hos)
    refine ⟨s2, hslot, ?_, ?_⟩
    · rw [hpend, check_now_accept w ig2 _ hos]
      simp
    · rw [hinv, check_now_accept w ig2 _ hos]

/-- Witness for C2 (amended) on a concrete single request followed by a
failing reply, for a plain callback and for a re-entering callback. -/
theorem C2_witness :
    (∃ s, (s = "no_update" ∨ s = "update_available" ∨ s = "deprecated" ∨ s = "error") ∧
      (_on_update_reply (check_now ⟨⟨"linux", "1.0", false, none⟩, none, 0, 0, [], []⟩ false
          (some (.plain 1 false))) ⟨true, ""⟩).invocations = [] ++ [(1, s)] ∧
      (_on_update_reply (check_now ⟨⟨"linux", "1.0", false, none⟩, none, 0, 0, [], []⟩ false
          (some (.plain 1 false))) ⟨true, ""⟩).client.result_callback_for_this_request = none)
    ∧ (∃ s2,
      (_on_update_reply (check_now ⟨⟨"linux", "1.0", false, none⟩, none, 0, 0, [], []⟩ false
          (some (.reenter 1 false (some (.plain 9 false))))) ⟨true, ""⟩).client.result_callback_for_this_request = some (.plain 9 false) ∧
      (_on_update_reply (check_now ⟨⟨"linux", "1.0", false, none⟩, none, 0, 0, [], []⟩ false
          (some (.reenter 1 false (some (.plain 9 false))))) ⟨true, ""⟩).pendingGets = 0 + 1 ∧
      (_on_update_reply (check_now ⟨⟨"linux", "1.0", false, none⟩, none, 0, 0, [], []⟩ false
          (some (.reenter 1 false (some (.plain 9 false))))) ⟨true, ""⟩).invocations =
        [] ++ [(1, s2)]) :=
  C2_exactly_once_no_overlap ⟨⟨"linux", "1.0", false, none⟩, none, 0, 0, [], []⟩ 1
    false false false (some (.plain 9 false)) ⟨true, ""⟩ (by decide)

/-- C3 counterexample: no timeout is armed on acceptance.  The world
tracks every single-shot timer the client arms; after a request is
accepted (GET issued, callback recorded) the count of armed timers is
still zero, contradicting the claim that acceptance arms a timeout that
can abort the fetch. -/
theorem C3_counterexample :
    (check_now ⟨⟨"linux", "1.0", false, none⟩, none, 0, 0, [], []⟩ false
      (some (.plain 1 false))).armedTimers = 0 :=
  rfl

/-- C3 (amended): accepting a request arms no timeout (`_request_update`
leaves the armed-timer count unchanged, and no client operation ever
increases it); a completion that reports a transport error resolves the
request as `"error"` directly, with parsing and decision logic skipped
entirely (the result does not depend on the reply body). -/
theorem C3_no_timeout_error_skips_parse (w : World) (ig : Bool) (cb : Option Cb)
    (reply : Reply) (hos : w.client.os_tag ≠ "") :
    (check_now w ig cb).armedTimers = w.armedTimers
    ∧ (reply.networkError = true →
        _on_update_reply w reply =
          _notify_request_result { w with pendingGets := w.pendingGets - 1 } "error") := by
  constructor
  · rw [check_now_accept w ig cb hos]
  · intro hrep
    simp only [_on_update_reply]
    rw [if_pos hrep]

/-- Witness for C3 (amended) at a concrete accepted request and a
failing reply whose body would parse fine if it were read. -/
theorem C3_witness :
    (check_now ⟨⟨"linux", "1.0", false, none⟩, none, 0, 0, [], []⟩ false
      (some (.plain 1 false))).armedTimers = 0
    ∧ ((⟨true, "9.9|linux|,|u"⟩ : Reply).networkError = true →
        _on_update_reply ⟨⟨"linux", "1.0", false, none⟩, none, 0, 0, [], []⟩
            ⟨true, "9.9|linux|,|u"⟩ =
          _notify_request_result
            ⟨⟨"linux", "1.0", false, none⟩, none, 0 - 1, 0, [], []⟩ "error") :=
  C3_no_timeout_error_skips_parse ⟨⟨"linux", "1.0", false, none⟩, none, 0, 0, [], []⟩
    false (some (.plain 1 false)) ⟨true, "9.9|linux|,|u"⟩ (by decide)

/-- C4: snooze suppression.  For a parsed result with `latest_entry`
strictly newer than the current version, no deprecated current entry,
and a plain sink recorded, the request resolves `"no_update"` exactly
when `ignore_skip` is false, a truthy `skip_version` exists,
`compare(current_version, skip_version) >= 0` and
`compare(latest_entry.version, skip_version) <= 0`; if the conditions
fail the request resolves `"update_available"`. -/
theorem C4_snooze_iff (w : World) (text : String) (i : Nat) (r : Bool) (latest : Entry)
    (hos : w.client.os_tag ≠ "")
    (hcb : w.client.result_callback_for_this_request = some (.plain i r))
    (hp : (_parse_update_descriptor text w.client.os_tag w.client.app_version).1 = some latest)
    (hdep : current_is_deprecated
      (_parse_update_descriptor text w.client.os_tag w.client.app_version).2 = false)
    (hnew : _compare_versions latest.version w.client.app_version > 0) :
    ((_handle_update_descriptor w text).invocations = w.invocations ++ [(i, "no_update")]
      ↔ (w.client.ignore_skip_for_this_request = false ∧
          ∃ sv, w.skip_version = some sv ∧ sv ≠ "" ∧
            _compare_versions w.client.app_version sv ≥ 0 ∧
            _compare_versions latest.version sv ≤ 0))
    ∧ (¬(w.client.ignore_skip_for_this_request = false ∧
          ∃ sv, w.skip_version = some sv ∧ sv ≠ "" ∧
            _compare_versions w.client.app_version sv ≥ 0 ∧
            _compare_versions latest.version sv ≤ 0) →
        (_handle_update_descriptor w text).invocations =
          w.invocations ++ [(i, "update_available")]) := by
  have havail : (w.client.ignore_skip_for_this_request = true ∨ w.skip_version = none ∨
      ∃ sv, w.skip_version = some sv ∧ (sv = "" ∨
        ¬(_compare_versions w.client.app_version sv ≥ 0 ∧
          _compare_versions latest.version sv ≤ 0))) →
      (_handle_update_descriptor w text).invocations =
        w.invocations ++ [(i, "update_available")] := by
    intro hd
    rw [handle_available w text latest hos hp hdep hnew hd,
      notify_plain (_show_optional_update_dialog w latest) i r "update_available"
        (by rw [show_optional_client]; exact hcb)]
    simp [show_optional_invocations]
  have hAofNot : ¬(w.client.ignore_skip_for_this_request = false ∧
      ∃ sv, w.skip_version = some sv ∧ sv ≠ "" ∧
        _compare_versions w.client.app_version sv ≥ 0 ∧
        _compare_versions latest.version sv ≤ 0) →
      (w.client.ignore_skip_for_this_request = true ∨ w.skip_version = none ∨
        ∃ sv, w.skip_version = some sv ∧ (sv = "" ∨
          ¬(_compare_versions w.client.app_version sv ≥ 0 ∧
            _compare_versions latest.version sv ≤ 0))) := by
    intro hR
    by_cases hig : w.client.ignore_skip_for_this_request
    · exact Or.inl hig
    · have hig0 : w.client.ignore_skip_for_this_request = false := by
        revert hig
        cases w.client.ignore_skip_for_this_request <;> simp
      rcases Option.eq_none_or_eq_some w.skip_version with hsv0 | ⟨sv, hsv0⟩
      · exact Or.inr (Or.inl hsv0)
      · by_cases hne : sv = ""
        · exact Or.inr (Or.inr ⟨sv, hsv0, Or.inl hne⟩)
        · refine Or.inr (Or.inr ⟨sv, hsv0, Or.inr ?_⟩)
          intro hc
          exact hR ⟨hig0, sv, hsv0, hne, hc.1, hc.2⟩
  constructor
  · constructor
    · intro hL
      by_contra hR
      have hU := havail (hAofNot hR)
      have hbad := hU.symm.trans hL
      simp at hbad
    · rintro ⟨hig, sv, hsv, hne, hc1, hc2⟩
      rw [handle_snoozed w text latest sv hos hp hdep hnew hig hsv hne hc1 hc2,
        notify_plain w i r "no_update" hcb]
  · intro hR
    exact havail (hAofNot hR)

/-- Witness for C4 on the spec's own example: current version `1.2`,
snoozed skip version `1.2`, offered latest `1.3` — the snooze window
does not apply (`compare("1.3","1.2") = 1`), so the request resolves
`"update_available"`. -/
theorem C4_witness :
    (_handle_update_descriptor
      ⟨⟨"linux", "1.2", false, some (.plain 1 false)⟩, some "1.2", 1, 0, [], []⟩
      "1.3|linux|,|u").invocations = [(1, "update_available")] := by
  have h := (C4_snooze_iff
      ⟨⟨"linux", "1.2", false, some (.plain 1 false)⟩, some "1.2", 1, 0, [], []⟩
      "1.3|linux|,|u" 1 false ⟨"1.3", [], "u"⟩ (by decide) rfl (by decide) (by decide)
      (by decide)).2 ?hnot
  · simpa using h
  case hnot =>
    rintro ⟨hig, sv, hsv, hne, hc1, hc2⟩
    simp only [Option.some.injEq] at hsv
    subst hsv
    exact absurd hc2 (by decide)

/-- C5: decision precedence.  With a nonempty OS tag, an absent
`latest_entry` resolves the request as `"error"` (before any other
rule), and a current entry carrying the `deprecated` flag resolves it
as `"deprecated"` with the mandatory dialog — for every version
ordering, snooze state and ignore flag, and even when a newer
non-deprecated latest entry exists. -/
theorem C5_precedence (w : World) (text : String) (hos : w.client.os_tag ≠ "") :
    (∀ cur, _parse_update_descriptor text w.client.os_tag w.client.app_version = (none, cur) →
        _handle_update_descriptor w text = _notify_request_result w "error")
    ∧ (∀ latest cur,
        _parse_update_descriptor text w.client.os_tag w.client.app_version =
          (some latest, some cur) →
        cur.flags.contains "deprecated" = true →
        _handle_update_descriptor w text =
          _notify_request_result (_show_mandatory_update_dialog w) "deprecated") := by
  constructor
  · intro cur hpair
    have hp : (_parse_update_descriptor text w.client.os_tag w.client.app_version).1 = none := by
      rw [hpair]
    simp [_handle_update_descriptor, hos, hp]
  · intro latest cur hpair hflag
    have hp : (_parse_update_descriptor text w.client.os_tag w.client.app_version).1 =
        some latest := by
      rw [hpair]
    have hdep : current_is_deprecated
        (_parse_update_descriptor text w.client.os_tag w.client.app_version).2 = true := by
      rw [hpair]
      simp only [current_is_deprecated]
      simpa using hflag
    simp [_handle_update_descriptor, hos, hp, hdep]

/-- Witness for C5: a deprecated current version `1.0` forces the
mandatory outcome even though a newer non-deprecated `2.0` entry is the
latest entry. -/
theorem C5_witness :
    _handle_update_descriptor ⟨⟨"linux", "1.0", false, some (.plain 1 false)⟩, none, 1, 0, [], []⟩
        "2.0|linux|,|u2\n1.0|linux|deprecated|u1" =
      _notify_request_result
        (_show_mandatory_update_dialog
          ⟨⟨"linux", "1.0", false, some (.plain 1 false)⟩, none, 1, 0, [], []⟩) "deprecated" :=
  (C5_precedence ⟨⟨"linux", "1.0", false, some (.plain 1 false)⟩, none, 1, 0, [], []⟩
      "2.0|linux|,|u2\n1.0|linux|deprecated|u1" (by decide)).2
    ⟨"2.0", [], "u2"⟩ ⟨"1.0", ["deprecated"], "u1"⟩ (by decide) (by decide)

/-- C10: exceptions raised by a caller-supplied sink never escape the
client.  Notifying a plain sink yields a state that does not depend on
whether the sink raises (`r` is arbitrary and absent from the result):
the callback slot is cleared before the call and the invocation is
logged; rejecting for a missing OS tag likewise swallows a raising
sink's exception and issues no GET; and after notifying a raising sink
the client accepts a fresh request with a fresh callback. -/
theorem C10_sink_exceptions_contained (w wE : World) (i j : Nat) (r rE : Bool)
    (result : String) (ig igE : Bool) (cb2 : Option Cb)
    (hcb : w.client.result_callback_for_this_request = some (.plain i r))
    (hos : w.client.os_tag ≠ "") (hosE : wE.client.os_tag = "") :
    _notify_request_result w result =
      { w with
        client := { w.client with result_callback_for_this_request := none },
        invocations := w.invocations ++ [(i, result)] }
    ∧ _request_update wE igE (some (.plain j rE)) =
        { wE with invocations := wE.invocations ++ [(j, "error")] }
    ∧ (check_now (_notify_request_result w result) ig cb2).client.result_callback_for_this_request = cb2 := by
  have h2 := check_now_accept
    { w with
      client := { w.client with result_callback_for_this_request := none },
      invocations := w.invocations ++ [(i, result)] } ig cb2 hos
  refine ⟨notify_plain w i r result hcb, request_update_reject_plain wE igE j rE hosE, ?_⟩
  rw [notify_plain w i r result hcb, h2]

/-- Witness for C10 with a raising sink (callback 7, `raises = true`)
and a raising sink rejected for a missing OS tag (callback 8). -/
theorem C10_witness :
    _notify_request_result
        ⟨⟨"linux", "1.0", false, some (.plain 7 true)⟩, none, 1, 0, [], []⟩ "error" =
      ⟨⟨"linux", "1.0", false, none⟩, none, 1, 0, [(7, "error")], []⟩
    ∧ _request_update ⟨⟨"", "1.0", false, none⟩, none, 0, 0, [], []⟩ true
        (some (.plain 8 true)) =
      ⟨⟨"", "1.0", false, none⟩, none, 0, 0, [(8, "error")], []⟩
    ∧ (check_now (_notify_request_result
        ⟨⟨"linux", "1.0", false, some (.plain 7 true)⟩, none, 1, 0, [], []⟩ "error") false
        (some (.plain 9 false))).client.result_callback_for_this_request = some (.plain 9 false) :=
  C10_sink_exceptions_contained
    ⟨⟨"linux", "1.0", false, some (.plain 7 true)⟩, none, 1, 0, [], []⟩
    ⟨⟨"", "1.0", false, none⟩, none, 0, 0, [], []⟩ 7 8 true true "error" false true
    (some (.plain 9 false)) rfl (by decide) rfl

end SoundBoard
